import Mathlib

/-!
Shallow embedding of `langchain/clickhouse.py` (class `ClickHouseDataBase`).

Modelling conventions:
- a connection (`clickhouse_connect` client) is a pair of oracles mapping a
  query / command string to either a driver error message or a result;
- Python exceptions become an explicit `PyErr` sum: `ValueError`s raised by
  the class itself carry their payload structurally, every exception coming
  out of the driver is `dbError` (the driver never raises `ValueError`);
- Python `set`s are modelled as duplicate-free lists (`List.dedup`); Python
  leaves set iteration order to the interpreter, the model fixes the order
  produced by `dedup`;
- side effects that the claims talk about (which catalog / per-table queries
  were issued, which diagnostics were printed) are returned as an event
  trace alongside each result.
-/

set_option autoImplicit false

namespace ClickHouseDB

/-- Python value as it appears in driver results: we only need strings,
integers and `None` for truthiness and `str()` rendering. -/
inductive PyVal where
  | vStr : String → PyVal
  | vInt : Int → PyVal
  | vNone : PyVal
  deriving DecidableEq, Repr

/-- Python `str()` of a value. -/
def pyStr : PyVal → String
  | .vStr s => s
  | .vInt n => toString n
  | .vNone => "None"

/-- Python `repr()` of a value, as used when rendering a list or tuple
(`str(['a'])` is `['a']` with quotes around elements). -/
def pyRepr : PyVal → String
  | .vStr s => "\x27" ++ s ++ "\x27"
  | .vInt n => toString n
  | .vNone => "None"

/-- Python truthiness of a value (`0`, `""`, `None` are falsy). -/
def truthy : PyVal → Bool
  | .vStr s => !s.isEmpty
  | .vInt n => n != 0
  | .vNone => false

/-- Python `str()` of a list of values, e.g. `['a', 'b']`. -/
def pyListStr (l : List PyVal) : String :=
  "[" ++ String.intercalate ", " (l.map pyRepr) ++ "]"

/-- Python `str()` of a tuple of values (singleton tuples render as
`('a',)`). -/
def pyTupleStr (l : List PyVal) : String :=
  match l with
  | [x] => "(" ++ pyRepr x ++ ",)"
  | _ => "(" ++ String.intercalate ", " (l.map pyRepr) ++ ")"

/-- Result of a driver `query` call: the row-major rows, the column names,
and the column-major columns, as exposed by `clickhouse_connect`. -/
structure QueryResult where
  result_rows : List (List PyVal)
  column_names : List String
  result_columns : List (List PyVal)
  deriving Repr

/-- The driver connection: oracles for `query` and `command`.  A `.error`
outcome is the driver raising an exception carrying the given message. -/
structure ConnSpec where
  query : String → Except String QueryResult
  command : String → Except String PyVal

/-- Exceptions of the Python code.  The first three are the `ValueError`s
raised by `ClickHouseDataBase` itself (the "ConfigurationError"s of the
spec), carrying their payload structurally; `customTableInfoNotDict` is the
`TypeError` for a non-dict `custom_table_info` (unreachable in this typed
model); `dbError` is any exception propagating out of the driver. -/
inductive PyErr where
  | includeTablesNotFound : List String → PyErr
  | tableNamesNotFound : List String → PyErr
  | bothIncludeIgnore : PyErr
  | customTableInfoNotDict : PyErr
  | dbError : String → PyErr
  deriving DecidableEq, Repr

/-- Python set repr of a set of strings, e.g. `{'a', 'b'}` (element order
fixed by the model's list order). -/
def fmtSet (l : List String) : String :=
  "\x7b" ++ String.intercalate ", " (l.map (fun s => "\x27" ++ s ++ "\x27")) ++ "\x7d"

/-- Message of an exception, Python `str(e)`. -/
def errMsg : PyErr → String
  | .includeTablesNotFound m => "include_tables " ++ fmtSet m ++ " not found in database"
  | .tableNamesNotFound m => "table_names " ++ fmtSet m ++ " not found in database"
  | .bothIncludeIgnore => "Cannot specify both include_tables and ignore_tables"
  | .customTableInfoNotDict =>
      "table_info must be a dictionary with table names as keys and the desired table info as values"
  | .dbError s => s

/-- Whether the exception is a Python `ValueError` (the only class caught by
`get_table_info_no_throw`). -/
def isValueError : PyErr → Bool
  | .includeTablesNotFound _ => true
  | .tableNamesNotFound _ => true
  | .bothIncludeIgnore => true
  | .customTableInfoNotDict => false
  | .dbError _ => false

/-- Observable side effects: a query string sent to the store, or a printed
diagnostic. -/
inductive Event where
  | issuedQuery : String → Event
  | diagnostic : String → Event
  deriving DecidableEq, Repr

/-- Python `set(l)`: duplicate-free list of the elements of `l`. -/
def pset (l : List String) : List String := l.dedup

/-- Python `row[0]`; driver result rows are non-empty in practice, a missing
cell is mapped to `None`. -/
def firstCell (row : List PyVal) : PyVal := row.headD .vNone

/-- State of a constructed `ClickHouseDataBase` object: the connection and
the fields set by `__init__`. -/
structure DB where
  conn : ConnSpec
  database : String
  indexes_in_table_info : Bool
  sample_rows_in_table_info : Int
  include_tables : List String
  ignore_tables : List String
  all_tables : List String
  usable_tables : List String
  custom_table_info : List (String × String)

/-- Body of `get_usable_table_names`, as a pure function of the three sets it
reads (`self._all_tables`, `self._include_tables`, `self._ignore_tables`):
if the include set is non-empty, every include entry must be in the catalog
set, else raise naming the missing ones, and the result is the include set;
otherwise the result is the catalog set minus the ignore set. -/
def resolveUsableTables (all inc ign : List String) : Except PyErr (List String) :=
  if inc ≠ [] then
    let missing := inc.filter (fun x => decide (x ∉ all))
    if missing ≠ [] then .error (.includeTablesNotFound missing)
    else .ok inc
  else .ok (all.filter (fun x => decide (x ∉ ign)))

/-- Method `get_usable_table_names` (recomputed on every call from the cached
sets, as in the source). -/
def get_usable_table_names (db : DB) : Except PyErr (List String) :=
  resolveUsableTables db.all_tables db.include_tables db.ignore_tables

/-- Constructor `__init__` after the connection is established: stores the
include/ignore sets, issues `SHOW TABLES` (via `get_all_table_names`),
resolves the usable set, checks the include/ignore exclusivity, and filters
`custom_table_info` down to keys in the usable set.  `custom_table_info` is
typed as a mapping, so the source's `TypeError` branch for a non-dict value
is unreachable here.  Returns the constructed state (or the exception) and
the trace of issued queries. -/
def initDB (conn : ConnSpec) (database : String)
    (include_tables ignore_tables : Option (List String))
    (custom_table_info : Option (List (String × String)))
    (sample_rows_in_table_info : Int) (indexes_in_table_info : Bool) :
    Except PyErr DB × List Event :=
  let inc := pset (include_tables.getD [])
  let ign := pset (ignore_tables.getD [])
  match conn.query "SHOW TABLES" with
  | .error e => (.error (.dbError e), [.issuedQuery "SHOW TABLES"])
  | .ok r =>
    let all := pset (r.result_rows.map (fun row => pyStr (firstCell row)))
    match resolveUsableTables all inc ign with
    | .error e => (.error e, [.issuedQuery "SHOW TABLES"])
    | .ok usable =>
      if inc ≠ [] ∧ ign ≠ [] then
        (.error .bothIncludeIgnore, [.issuedQuery "SHOW TABLES"])
      else
        let ct := (custom_table_info.getD []).filter (fun p => decide (p.1 ∈ usable))
        (.ok { conn := conn, database := database,
               indexes_in_table_info := indexes_in_table_info,
               sample_rows_in_table_info := sample_rows_in_table_info,
               include_tables := inc, ignore_tables := ign,
               all_tables := all, usable_tables := pset usable,
               custom_table_info := ct },
         [.issuedQuery "SHOW TABLES"])

/-- Lookup in the (filtered) `custom_table_info` mapping. -/
def ctLookup (ct : List (String × String)) (t : String) : Option String :=
  match ct with
  | [] => none
  | (k, v) :: rest => if k = t then some v else ctLookup rest t

/-- Query string `DESCRIBE <table>`. -/
def describeQuery (t : String) : String := "DESCRIBE " ++ t

/-- Query string for the primary-key lookup of a table. -/
def indexesQuery (database t : String) : String :=
  "SELECT name FROM system.columns WHERE database = \x27" ++ database ++
    "\x27 AND table = \x27" ++ t ++ "\x27 AND is_in_primary_key=1"

/-- Query string for the sample-rows lookup of a table. -/
def sampleQuery (n : Int) (t : String) : String :=
  "SELECT * FROM " ++ t ++ " SAMPLE 0.3 LIMIT " ++ toString n

/-- Column-name list rendering: `str([row[0] for row in result_rows])`. -/
def baseOf (r : QueryResult) : String :=
  pyListStr (r.result_rows.map firstCell)

/-- Text accumulated by the primary-key loop: one line per entry of
`result_columns` (each entry is a whole column of values, rendered as a
Python list). -/
def pkBlock (r : QueryResult) : String :=
  String.join (r.result_columns.map (fun col => "Primary keys are " ++ pyListStr col ++ "\n"))

/-- Sample-rows section appended on a successful sample query. -/
def sampleBlock (r : QueryResult) : String :=
  "\n\n-- Sample Rows:\n-- " ++ String.intercalate ", " r.column_names ++ "\n" ++
    String.intercalate "\n" (r.result_rows.map (fun row => pyTupleStr row)) ++ "\n"

/-- Diagnostic printed when a table cannot be sampled. -/
def sampleDiag (t : String) : String :=
  "Table " ++ t ++ " cannot be sampled. Check the database connection parameters and remove the `sample_rows_in_table_info` parameter or set it to 0."

/-- Sample step of `get_table_info`: when `sample_rows_in_table_info` is
truthy, issue the sample query; on any failure swallow the error and print
the diagnostic, otherwise append the sample block. -/
def sampleStep (db : DB) (t : String) (ti : String) : String × List Event :=
  if db.sample_rows_in_table_info ≠ 0 then
    match db.conn.query (sampleQuery db.sample_rows_in_table_info t) with
    | .error _ =>
        (ti, [.issuedQuery (sampleQuery db.sample_rows_in_table_info t), .diagnostic (sampleDiag t)])
    | .ok sr =>
        (ti ++ sampleBlock sr, [.issuedQuery (sampleQuery db.sample_rows_in_table_info t)])
  else (ti, [])

/-- Loop body of `get_table_info` for one table: issue `DESCRIBE`, render the
column list, short-circuit to the custom text when a custom entry exists,
otherwise open the comment block when extra info is enabled, run the
primary-key step (driver failures propagate) and the sample step (driver
failures swallowed), and close the comment block. -/
def tableDesc (db : DB) (t : String) : Except PyErr String × List Event :=
  match db.conn.query (describeQuery t) with
  | .error e => (.error (.dbError e), [.issuedQuery (describeQuery t)])
  | .ok table_result =>
    let table_info := baseOf table_result
    match ctLookup db.custom_table_info t with
    | some v => (.ok v, [.issuedQuery (describeQuery t)])
    | none =>
      let has_extra := db.indexes_in_table_info || decide (db.sample_rows_in_table_info ≠ 0)
      let ti1 := if has_extra then table_info ++ "\n\n/*" else table_info
      if db.indexes_in_table_info then
        match db.conn.query (indexesQuery db.database t) with
        | .error e =>
            (.error (.dbError e),
             [.issuedQuery (describeQuery t), .issuedQuery (indexesQuery db.database t)])
        | .ok ir =>
            let ti2 := ti1 ++ "\n" ++ pkBlock ir ++ "\n"
            let s := sampleStep db t ti2
            (.ok (if has_extra then s.1 ++ "*/" else s.1),
             [.issuedQuery (describeQuery t), .issuedQuery (indexesQuery db.database t)] ++ s.2)
      else
        let s := sampleStep db t ti1
        (.ok (if has_extra then s.1 ++ "*/" else s.1),
         [.issuedQuery (describeQuery t)] ++ s.2)

/-- Target-set resolution at the head of `get_table_info`: recompute the
usable set; with no argument the targets are the usable set, with an
argument every requested name must be usable (else raise naming the missing
ones) and the targets are the argument list itself. -/
def targetTables (db : DB) (tn : Option (List String)) : Except PyErr (List String) :=
  match get_usable_table_names db with
  | .error e => .error e
  | .ok usable =>
    match tn with
    | none => .ok usable
    | some ts =>
      let missing := (pset ts).filter (fun x => decide (x ∉ usable))
      if missing ≠ [] then .error (.tableNamesNotFound missing)
      else .ok ts

/-- Python `sep.join(blocks)`. -/
def joinBlocks (sep : String) : List String → String
  | [] => ""
  | [x] => x
  | x :: xs => x ++ sep ++ joinBlocks sep xs

/-- Description loop over the target tables, accumulating blocks and events;
the first propagated exception aborts the loop. -/
def descTables (db : DB) : List String → Except PyErr (List String) × List Event
  | [] => (.ok [], [])
  | t :: ts =>
    match tableDesc db t with
    | (.error e, ev) => (.error e, ev)
    | (.ok s, ev) =>
      match descTables db ts with
      | (.error e, ev2) => (.error e, ev ++ ev2)
      | (.ok ss, ev2) => (.ok (s :: ss), ev ++ ev2)

/-- Method `get_table_info`: resolve the targets, describe each, join the
blocks with a blank line. -/
def get_table_info (db : DB) (tn : Option (List String)) : Except PyErr String × List Event :=
  match targetTables db tn with
  | .error e => (.error e, [])
  | .ok ts =>
    match descTables db ts with
    | (.error e, ev) => (.error e, ev)
    | (.ok ss, ev) => (.ok (joinBlocks "\n\n" ss), ev)

/-- Method `get_table_info_no_throw`: call `get_table_info`, catch only
`ValueError` and format it as `"Error: <message>"`; every other exception
propagates. -/
def get_table_info_no_throw (db : DB) (tn : Option (List String)) :
    Except PyErr String × List Event :=
  match get_table_info db tn with
  | (.error e, ev) =>
      if isValueError e then (.ok ("Error: " ++ errMsg e), ev) else (.error e, ev)
  | (.ok s, ev) => (.ok s, ev)

/-- Method `run_no_throw`: run the command, catch every exception as
`"Error: <message>"`; a truthy result is rendered with `str()`, a falsy one
becomes the empty string. -/
def run_no_throw (conn : ConnSpec) (command : String) : String :=
  match conn.command command with
  | .ok v => if truthy v then pyStr v else ""
  | .error e => "Error: " ++ e

/-- Helper for `splitLines`. -/
def splitLinesAux : List Char → List Char → List String
  | [], acc => [String.mk acc.reverse]
  | c :: cs, acc =>
    if c = '\n' then String.mk acc.reverse :: splitLinesAux cs []
    else splitLinesAux cs (c :: acc)

/-- Lines of a string, split on the newline character (used to inspect
rendered descriptions line by line). -/
def splitLines (s : String) : List String := splitLinesAux s.data []

/-! Concrete stores used to evaluate the development on closed inputs. -/

/-- Catalog listing of the concrete store: tables `t` and `u`. -/
def qrShow : QueryResult := ⟨[[.vStr "t"], [.vStr "u"]], ["name"], [[.vStr "t", .vStr "u"]]⟩

/-- `DESCRIBE t` result: columns `a` and `b`. -/
def qrT : QueryResult := ⟨[[.vStr "a"], [.vStr "b"]], ["name", "type"], [[.vStr "a", .vStr "b"]]⟩

/-- `DESCRIBE u` result: a single column `c`. -/
def qrU : QueryResult := ⟨[[.vStr "c"]], ["name", "type"], [[.vStr "c"]]⟩

/-- Sample result for table `u`. -/
def qrS : QueryResult := ⟨[[.vStr "x", .vInt 1]], ["c", "d"], [[.vStr "x"], [.vInt 1]]⟩

/-- Primary-key metadata for table `t`: one result column holding the two
primary-key column names `a` and `b`. -/
def qrPK : QueryResult := ⟨[[.vStr "a"], [.vStr "b"]], ["name"], [[.vStr "a", .vStr "b"]]⟩

/-- Concrete connection: catalog with tables `t` and `u`; `t` cannot be
sampled, `u` can; `t` has primary-key metadata; every other query fails with
message `boom`.  Commands `zero` / `emptystr` yield falsy results, `one` a
truthy one, anything else fails. -/
def connA : ConnSpec where
  query := fun q =>
    if q = "SHOW TABLES" then .ok qrShow
    else if q = describeQuery "t" then .ok qrT
    else if q = describeQuery "u" then .ok qrU
    else if q = sampleQuery 2 "u" then .ok qrS
    else if q = indexesQuery "db" "t" then .ok qrPK
    else .error "boom"
  command := fun c =>
    if c = "zero" then .ok (.vInt 0)
    else if c = "one" then .ok (.vInt 1)
    else if c = "emptystr" then .ok (.vStr "")
    else .error "boom"

/-- Concrete connection whose catalog holds a single table `bad` that cannot
be described. -/
def connB : ConnSpec where
  query := fun q =>
    if q = "SHOW TABLES" then .ok ⟨[[.vStr "bad"]], ["name"], [[.vStr "bad"]]⟩
    else .error "boom"
  command := fun _ => .error "boom"

/-- State constructed over `connA` with no include/ignore/custom
configuration and two sample rows requested. -/
def dbA : DB where
  conn := connA
  database := "db"
  indexes_in_table_info := false
  sample_rows_in_table_info := 2
  include_tables := []
  ignore_tables := []
  all_tables := ["t", "u"]
  usable_tables := ["t", "u"]
  custom_table_info := []

/-- Variant of `dbA` with a custom entry for table `t` and no extra info. -/
def dbB : DB :=
  { dbA with sample_rows_in_table_info := 0, custom_table_info := [("t", "CUSTOM")] }

/-- Variant of `dbA` with primary-key rendering enabled and sampling off. -/
def dbC : DB :=
  { dbA with indexes_in_table_info := true, sample_rows_in_table_info := 0 }

/-- State constructed over `connB` (the state `initDB` yields for it): one
usable table whose description queries fail. -/
def dbD : DB where
  conn := connB
  database := "db"
  indexes_in_table_info := false
  sample_rows_in_table_info := 0
  include_tables := []
  ignore_tables := []
  all_tables := ["bad"]
  usable_tables := ["bad"]
  custom_table_info := []

/-- State `initDB` yields over `connA` for a custom mapping with entries for
`t` (usable) and `z` (unknown, dropped). -/
def db7 : DB where
  conn := connA
  database := "db"
  indexes_in_table_info := false
  sample_rows_in_table_info := 0
  include_tables := []
  ignore_tables := []
  all_tables := ["t", "u"]
  usable_tables := ["t", "u"]
  custom_table_info := [("t", "CUSTOM")]

/-! Claims. -/

/-- C9: `run_no_throw` returns the empty string for every successfully
executed command whose result is falsy — including a scalar `0` or an empty
string, not only the no-result case — so such successful results are
indistinguishable from producing no result at all. -/
theorem claim_C9 (conn : ConnSpec) (c : String) (v : PyVal)
    (h : conn.command c = .ok v) (hf : truthy v = false) :
    run_no_throw conn c = "" := by
  simp [run_no_throw, h, hf]

/-- Witness for C9: commands yielding the scalar `0` and the empty string
both come back as `""`. -/
theorem claim_C9_witness :
    run_no_throw connA "zero" = "" ∧ run_no_throw connA "emptystr" = "" :=
  ⟨claim_C9 connA "zero" (.vInt 0) rfl rfl,
   claim_C9 connA "emptystr" (.vStr "") rfl rfl⟩

/-- Counterexample to C2 as stated: the command `zero` succeeds with the
scalar result `0`, whose Python string rendering is `"0"`, yet `run_no_throw`
returns `""` — so a successful scalar result is not always returned as its
string rendering. -/
theorem claim_C2_counterexample :
    connA.command "zero" = .ok (.vInt 0) ∧ pyStr (.vInt 0) = "0" ∧
      run_no_throw connA "zero" = "" ∧ ("" : String) ≠ "0" :=
  ⟨rfl, rfl, rfl, by decide⟩

/-- C2 (amended): `run_no_throw` never propagates an exception: any execution
error is returned as the string `"Error: <message>"`; a successful falsy
result (no rows, the scalar `0`, an empty string) is returned as `""`; a
successful truthy result is returned as its string rendering. -/
theorem claim_C2_amended (conn : ConnSpec) (c : String) :
    (∀ e, conn.command c = .error e → run_no_throw conn c = "Error: " ++ e) ∧
    (∀ v, conn.command c = .ok v → truthy v = false → run_no_throw conn c = "") ∧
    (∀ v, conn.command c = .ok v → truthy v = true → run_no_throw conn c = pyStr v) := by
  refine ⟨fun e he => ?_, fun v hv hf => ?_, fun v hv ht => ?_⟩
  · simp [run_no_throw, he]
  · simp [run_no_throw, hv, hf]
  · simp [run_no_throw, hv, ht]

/-- Witness for C2 (amended): a failing command, a falsy result and a truthy
result, each at a concrete connection. -/
theorem claim_C2_witness :
    run_no_throw connA "failcmd" = "Error: " ++ "boom" ∧
    run_no_throw connA "zero" = "" ∧
    run_no_throw connA "one" = pyStr (.vInt 1) :=
  ⟨(claim_C2_amended connA "failcmd").1 "boom" rfl,
   (claim_C2_amended connA "zero").2.1 (.vInt 0) rfl rfl,
   (claim_C2_amended connA "one").2.2 (.vInt 1) rfl rfl⟩

/-- Counterexample to C4 as stated: with catalog `{a}`, include list `∅`
(trivially a subset of the catalog) and ignore list `∅`, the claim demands
the result `∅`, but the code takes the ignore branch and returns the whole
catalog `{a}`. -/
theorem claim_C4_counterexample :
    resolveUsableTables ["a"] [] [] = .ok ["a"] ∧ (["a"] : List String) ≠ [] :=
  ⟨rfl, by decide⟩

/-- C4 (amended): for every catalog `T` and non-empty include list `I ⊆ T`,
resolution returns `I`; with an empty include list it returns `T − G` for
any ignore list `G` (absent ignore entries are no-ops); and a non-empty
include list with names missing from `T` fails with the ConfigurationError
naming exactly the missing tables. -/
theorem claim_C4_amended (all inc ign : List String) :
    (inc ≠ [] → (∀ x ∈ inc, x ∈ all) → resolveUsableTables all inc ign = .ok inc) ∧
    (inc = [] → resolveUsableTables all inc ign = .ok (all.filter (fun x => decide (x ∉ ign))) ∧
      ∀ x, x ∈ all.filter (fun x => decide (x ∉ ign)) ↔ (x ∈ all ∧ x ∉ ign)) ∧
    (inc ≠ [] → inc.filter (fun x => decide (x ∉ all)) ≠ [] →
      resolveUsableTables all inc ign =
        .error (.includeTablesNotFound (inc.filter (fun x => decide (x ∉ all)))) ∧
      ∀ x, x ∈ inc.filter (fun x => decide (x ∉ all)) ↔ (x ∈ inc ∧ x ∉ all)) := by
  refine ⟨fun h1 h2 => ?_, fun h1 => ⟨?_, fun x => ?_⟩, fun h1 h2 => ⟨?_, fun x => ?_⟩⟩
  · have hm : inc.filter (fun x => decide (x ∉ all)) = [] := by
      rw [List.filter_eq_nil_iff]
      intro a ha
      simp [h2 a ha]
    simp only [resolveUsableTables]
    rw [if_pos h1, if_neg (not_not_intro hm)]
  · simp only [resolveUsableTables]
    rw [if_neg (by simp [h1])]
  · simp [List.mem_filter]
  · simp only [resolveUsableTables]
    rw [if_pos h1, if_pos h2]
  · simp [List.mem_filter]

/-- Witness for C4 (amended): concrete catalog `{t, u}` with an include
list, an ignore list, and a missing include entry. -/
theorem claim_C4_witness :
    resolveUsableTables ["t", "u"] ["t"] [] = .ok ["t"] ∧
    resolveUsableTables ["t", "u"] [] ["u"] =
      .ok (["t", "u"].filter (fun x => decide (x ∉ (["u"] : List String)))) ∧
    resolveUsableTables ["t", "u"] ["t", "x"] [] =
      .error (.includeTablesNotFound (["t", "x"].filter
        (fun x => decide (x ∉ (["t", "u"] : List String))))) :=
  ⟨(claim_C4_amended ["t", "u"] ["t"] []).1 (by decide) (by decide),
   ((claim_C4_amended ["t", "u"] [] ["u"]).2.1 rfl).1,
   ((claim_C4_amended ["t", "u"] ["t", "x"] []).2.2 (by decide) (by decide)).1⟩

/-- C10: describing an explicitly empty requested list returns the empty
string and issues no per-table queries, in both the throwing and the
no-throw variant; only an absent argument defaults the target set to the
whole usable set. -/
theorem claim_C10 (db : DB) (u : List String)
    (h : get_usable_table_names db = .ok u) :
    get_table_info db (some []) = (.ok "", []) ∧
    get_table_info_no_throw db (some []) = (.ok "", []) ∧
    targetTables db none = .ok u := by
  have ht : targetTables db (some []) = .ok [] := by
    simp [targetTables, h, pset]
  have hg : get_table_info db (some []) = (.ok "", []) := by
    simp [get_table_info, ht, descTables, joinBlocks]
  refine ⟨hg, ?_, by simp [targetTables, h]⟩
  simp [get_table_info_no_throw, hg]

/-- Witness for C10 at the concrete store `dbA`. -/
theorem claim_C10_witness :
    get_table_info dbA (some []) = (.ok "", []) ∧
    get_table_info_no_throw dbA (some []) = (.ok "", []) ∧
    targetTables dbA none = .ok ["t", "u"] :=
  claim_C10 dbA ["t", "u"] rfl

/-- Counterexample to C3 as stated: with include `{t}` and ignore `{u}` the
construction does fail with the both-specified ConfigurationError, but the
catalog query `SHOW TABLES` has already been issued at that point; and with
include `{x}` (absent from the catalog) and ignore `{u}` the failure is the
missing-include ConfigurationError, not the both-specified one. -/
theorem claim_C3_counterexample :
    initDB connA "db" (some ["t"]) (some ["u"]) none 0 false =
      (.error .bothIncludeIgnore, [.issuedQuery "SHOW TABLES"]) ∧
    Event.issuedQuery "SHOW TABLES" ∈
      (initDB connA "db" (some ["t"]) (some ["u"]) none 0 false).2 ∧
    (initDB connA "db" (some ["x"]) (some ["u"]) none 0 false).1 =
      .error (.includeTablesNotFound ["x"]) :=
  ⟨rfl, by decide, rfl⟩

/-- C3 (amended): for every pair of non-empty include and ignore lists,
construction fails with a ConfigurationError — the both-specified error when
every include entry is in the catalog, otherwise the missing-include error
naming the missing entries — but only after the catalog listing query has
been issued.  The stated condition (the missing set is empty) is proved
equivalent to every include entry being in the catalog. -/
theorem claim_C3_amended (conn : ConnSpec) (database : String)
    (inc ign : List String) (ct : Option (List (String × String))) (n : Int) (b : Bool)
    (r : QueryResult)
    (hinc : inc ≠ []) (hign : ign ≠ [])
    (hq : conn.query "SHOW TABLES" = .ok r) :
    (initDB conn database (some inc) (some ign) ct n b).1 =
      .error (if (pset inc).filter (fun x =>
            decide (x ∉ pset (r.result_rows.map (fun row => pyStr (firstCell row))))) = []
        then PyErr.bothIncludeIgnore
        else PyErr.includeTablesNotFound ((pset inc).filter (fun x =>
            decide (x ∉ pset (r.result_rows.map (fun row => pyStr (firstCell row))))))) ∧
    isValueError (if (pset inc).filter (fun x =>
            decide (x ∉ pset (r.result_rows.map (fun row => pyStr (firstCell row))))) = []
        then PyErr.bothIncludeIgnore
        else PyErr.includeTablesNotFound ((pset inc).filter (fun x =>
            decide (x ∉ pset (r.result_rows.map (fun row => pyStr (firstCell row))))))) = true ∧
    ((pset inc).filter (fun x =>
        decide (x ∉ pset (r.result_rows.map (fun row => pyStr (firstCell row))))) = [] ↔
      ∀ x ∈ inc, x ∈ pset (r.result_rows.map (fun row => pyStr (firstCell row)))) ∧
    (initDB conn database (some inc) (some ign) ct n b).2 = [.issuedQuery "SHOW TABLES"] := by
  have hpinc : pset inc ≠ [] := by simpa [pset, List.dedup_eq_nil] using hinc
  have hpign : pset ign ≠ [] := by simpa [pset, List.dedup_eq_nil] using hign
  have hiff : (pset inc).filter (fun x =>
      decide (x ∉ pset (r.result_rows.map (fun row => pyStr (firstCell row))))) = [] ↔
      ∀ x ∈ inc, x ∈ pset (r.result_rows.map (fun row => pyStr (firstCell row))) := by
    simp [List.filter_eq_nil_iff, pset, List.mem_dedup]
  by_cases hm : (pset inc).filter
      (fun x => decide (x ∉ pset (r.result_rows.map (fun row => pyStr (firstCell row))))) = []
  · have hres : resolveUsableTables (pset (r.result_rows.map (fun row => pyStr (firstCell row))))
        (pset inc) (pset ign) = .ok (pset inc) := by
      simp only [resolveUsableTables]
      rw [if_pos hpinc, if_neg (not_not_intro hm)]
    refine ⟨?_, ?_, hiff, ?_⟩
    · rw [if_pos hm]
      simp [initDB, hq, hres, hpinc, hpign]
    · rw [if_pos hm]
      rfl
    · simp [initDB, hq, hres, hpinc, hpign]
  · have hres : resolveUsableTables (pset (r.result_rows.map (fun row => pyStr (firstCell row))))
        (pset inc) (pset ign) = .error (.includeTablesNotFound ((pset inc).filter
          (fun x => decide (x ∉ pset (r.result_rows.map (fun row => pyStr (firstCell row))))))) := by
      simp only [resolveUsableTables]
      rw [if_pos hpinc, if_pos hm]
    refine ⟨?_, ?_, hiff, ?_⟩
    · rw [if_neg hm]
      simp [initDB, hq, hres]
    · rw [if_neg hm]
      rfl
    · simp [initDB, hq, hres]

/-- Witness for C3 (amended) at the concrete store behind `connA`: include
`{t}` (all in the catalog) hits the both-specified error, include `{x}`
(missing) hits the missing-include error, both with non-empty ignore. -/
theorem claim_C3_witness :
    (initDB connA "db" (some ["t"]) (some ["u"]) none 0 false).1 =
      .error PyErr.bothIncludeIgnore ∧
    (initDB connA "db" (some ["x"]) (some ["u"]) none 0 false).1 =
      .error (PyErr.includeTablesNotFound ["x"]) :=
  have h1 := claim_C3_amended connA "db" ["t"] ["u"] none 0 false qrShow
    (by decide) (by decide) rfl
  have h2 := claim_C3_amended connA "db" ["x"] ["u"] none 0 false qrShow
    (by decide) (by decide) rfl
  ⟨by rw [h1.1]; rfl, by rw [h2.1]; rfl⟩

/-- Counterexample to C1 as stated: over `connB` the construction succeeds,
yielding the state `dbD`, but describing its usable tables hits a failing
`DESCRIBE` query and `get_table_info_no_throw` propagates the driver
exception instead of returning any string. -/
theorem claim_C1_counterexample :
    (initDB connB "db" none none none 0 false).1 = .ok dbD ∧
    (get_table_info_no_throw dbD none).1 = .error (.dbError "boom") ∧
    ¬ ∃ s, (get_table_info_no_throw dbD none).1 = .ok s := by
  refine ⟨rfl, rfl, ?_⟩
  rintro ⟨s, hs⟩
  rw [show (get_table_info_no_throw dbD none).1 = .error (.dbError "boom") from rfl] at hs
  exact Except.noConfusion hs

/-- C1 (amended): the non-throwing describe variant wraps a ConfigurationError
(`ValueError`) from target-set resolution and returns `"Error: <message>"`
as a normal string, and passes successful descriptions through; but an
underlying query failure (an exception that is not a `ValueError`) during
description propagates to the caller instead of being surfaced as a
string. -/
theorem claim_C1_amended (db : DB) (tn : Option (List String)) :
    (∀ e, (get_table_info db tn).1 = .error e → isValueError e = true →
      (get_table_info_no_throw db tn).1 = .ok ("Error: " ++ errMsg e)) ∧
    (∀ e, (get_table_info db tn).1 = .error e → isValueError e = false →
      (get_table_info_no_throw db tn).1 = .error e) ∧
    (∀ s, (get_table_info db tn).1 = .ok s → (get_table_info_no_throw db tn).1 = .ok s) := by
  refine ⟨fun e he h1 => ?_, fun e he h1 => ?_, fun s hs => ?_⟩
  · rcases hg : get_table_info db tn with ⟨res, ev⟩
    rw [hg] at he
    simp only at he
    subst he
    simp [get_table_info_no_throw, hg, h1]
  · rcases hg : get_table_info db tn with ⟨res, ev⟩
    rw [hg] at he
    simp only at he
    subst he
    simp [get_table_info_no_throw, hg, h1]
  · rcases hg : get_table_info db tn with ⟨res, ev⟩
    rw [hg] at hs
    simp only at hs
    subst hs
    simp [get_table_info_no_throw, hg]

/-- Witness for C1 (amended): a wrapped ConfigurationError for an unknown
requested table, a propagated driver failure, and a passed-through success. -/
theorem claim_C1_witness :
    (get_table_info_no_throw dbA (some ["zz"])).1 =
      .ok ("Error: " ++ errMsg (.tableNamesNotFound ["zz"])) ∧
    (get_table_info_no_throw dbD none).1 = .error (.dbError "boom") ∧
    (get_table_info_no_throw dbA (some [])).1 = .ok "" :=
  ⟨(claim_C1_amended dbA (some ["zz"])).1 (.tableNamesNotFound ["zz"]) rfl rfl,
   (claim_C1_amended dbD none).2.1 (.dbError "boom") rfl rfl,
   (claim_C1_amended dbA (some [])).2.2 "" rfl⟩

/-- Counterexample to C6 as stated: table `t` has a custom entry and its
emitted description is that entry verbatim, yet the column-listing command
`DESCRIBE t` is still issued for it — so the column-listing command is not
issued only for tables without a custom entry. -/
theorem claim_C6_counterexample :
    ctLookup dbB.custom_table_info "t" = some "CUSTOM" ∧
    (tableDesc dbB "t").1 = .ok "CUSTOM" ∧
    Event.issuedQuery (describeQuery "t") ∈ (tableDesc dbB "t").2 :=
  ⟨rfl, rfl, by decide⟩

/-- C6 (amended): for every table with a Custom Table Info entry, the entry's
text is emitted verbatim as the table's whole description and the remaining
per-table steps are skipped (no primary-key or sample query is issued), but
the column-listing command is issued for every target table, including those
with a custom entry — its trace is exactly the `DESCRIBE` query. -/
theorem claim_C6_amended (db : DB) (t : String) (r : QueryResult) (v : String)
    (hd : db.conn.query (describeQuery t) = .ok r)
    (hc : ctLookup db.custom_table_info t = some v) :
    tableDesc db t = (.ok v, [.issuedQuery (describeQuery t)]) := by
  simp [tableDesc, hd, hc]

/-- Witness for C6 (amended) at the concrete store `dbB`. -/
theorem claim_C6_witness :
    tableDesc dbB "t" = (.ok "CUSTOM", [.issuedQuery (describeQuery "t")]) :=
  claim_C6_amended dbB "t" qrT "CUSTOM" rfl rfl

/-- Counterexample to C8 as stated: table `t` has the two primary-key columns
`a` and `b` in the catalog metadata, but its description carries a single
line rendering the whole list of names (`Primary keys are ['a', 'b']`);
neither `Primary keys are a` nor `Primary keys are b` appears as a line. -/
theorem claim_C8_counterexample :
    (tableDesc dbC "t").1 =
      .ok "[\x27a\x27, \x27b\x27]\n\n/*\nPrimary keys are [\x27a\x27, \x27b\x27]\n\n*/" ∧
    ((splitLines
      "[\x27a\x27, \x27b\x27]\n\n/*\nPrimary keys are [\x27a\x27, \x27b\x27]\n\n*/").contains
      "Primary keys are a") = false ∧
    ((splitLines
      "[\x27a\x27, \x27b\x27]\n\n/*\nPrimary keys are [\x27a\x27, \x27b\x27]\n\n*/").contains
      "Primary keys are b") = false :=
  ⟨rfl, by decide, by decide⟩

/-- C8 (amended): when primary-key rendering is enabled (sampling off, no
custom entry), the description of a table contains, inside the comment
block, one line per column of the primary-key query's result — in practice a
single line of the form `Primary keys are <list rendering of all primary-key
column names>` — rather than one line per primary-key column. -/
theorem claim_C8_amended (db : DB) (t : String) (r ir : QueryResult)
    (hi : db.indexes_in_table_info = true)
    (hs : db.sample_rows_in_table_info = 0)
    (hc : ctLookup db.custom_table_info t = none)
    (hd : db.conn.query (describeQuery t) = .ok r)
    (hpk : db.conn.query (indexesQuery db.database t) = .ok ir) :
    (tableDesc db t).1 = .ok (baseOf r ++ "\n\n/*" ++ "\n" ++ pkBlock ir ++ "\n" ++ "*/") := by
  simp [tableDesc, hd, hc, hi, hs, hpk, sampleStep]

/-- Witness for C8 (amended) at the concrete store `dbC`. -/
theorem claim_C8_witness :
    (tableDesc dbC "t").1 = .ok (baseOf qrT ++ "\n\n/*" ++ "\n" ++ pkBlock qrPK ++ "\n" ++ "*/") :=
  claim_C8_amended dbC "t" qrT qrPK rfl rfl rfl rfl rfl

/-- C5: sample-row rendering is resilient per table: with sampling requested,
a table `t` whose sample query fails yields a description without a sample
block (the comment block closes empty) while a diagnostic is emitted, a
second table `u` whose sample query succeeds keeps its sample block, and the
overall describe call succeeds with both blocks joined. -/
theorem claim_C5 (db : DB) (t u : String) (rt ru su : QueryResult) (e : String)
    (hsr : db.sample_rows_in_table_info ≠ 0)
    (hit : db.indexes_in_table_info = false)
    (hct : ctLookup db.custom_table_info t = none)
    (hcu : ctLookup db.custom_table_info u = none)
    (hdt : db.conn.query (describeQuery t) = .ok rt)
    (hdu : db.conn.query (describeQuery u) = .ok ru)
    (hst : db.conn.query (sampleQuery db.sample_rows_in_table_info t) = .error e)
    (hsu : db.conn.query (sampleQuery db.sample_rows_in_table_info u) = .ok su)
    (htt : targetTables db (some [t, u]) = .ok [t, u]) :
    (get_table_info db (some [t, u])).1 =
      .ok ((baseOf rt ++ "\n\n/*" ++ "*/") ++ "\n\n" ++
        (baseOf ru ++ "\n\n/*" ++ sampleBlock su ++ "*/")) ∧
    Event.diagnostic (sampleDiag t) ∈ (get_table_info db (some [t, u])).2 := by
  have hdt2 : tableDesc db t = (.ok (baseOf rt ++ "\n\n/*" ++ "*/"),
      [.issuedQuery (describeQuery t),
       .issuedQuery (sampleQuery db.sample_rows_in_table_info t),
       .diagnostic (sampleDiag t)]) := by
    simp [tableDesc, hdt, hct, hit, sampleStep, hsr, hst]
  have hdu2 : tableDesc db u = (.ok (baseOf ru ++ "\n\n/*" ++ sampleBlock su ++ "*/"),
      [.issuedQuery (describeQuery u),
       .issuedQuery (sampleQuery db.sample_rows_in_table_info u)]) := by
    simp [tableDesc, hdu, hcu, hit, sampleStep, hsr, hsu]
  have hdesc : descTables db [t, u] =
      (.ok [baseOf rt ++ "\n\n/*" ++ "*/", baseOf ru ++ "\n\n/*" ++ sampleBlock su ++ "*/"],
       [.issuedQuery (describeQuery t),
        .issuedQuery (sampleQuery db.sample_rows_in_table_info t),
        .diagnostic (sampleDiag t),
        .issuedQuery (describeQuery u),
        .issuedQuery (sampleQuery db.sample_rows_in_table_info u)]) := by
    simp [descTables, hdt2, hdu2]
  constructor
  · simp [get_table_info, htt, hdesc, joinBlocks]
  · simp [get_table_info, htt, hdesc]

/-- Witness for C5 at the concrete store `dbA`: table `t` cannot be sampled,
table `u` can. -/
theorem claim_C5_witness :
    (get_table_info dbA (some ["t", "u"])).1 =
      .ok ((baseOf qrT ++ "\n\n/*" ++ "*/") ++ "\n\n" ++
        (baseOf qrU ++ "\n\n/*" ++ sampleBlock qrS ++ "*/")) ∧
    Event.diagnostic (sampleDiag "t") ∈ (get_table_info dbA (some ["t", "u"])).2 :=
  claim_C5 dbA "t" "u" qrT qrU qrS "boom" (by decide) rfl rfl rfl rfl rfl rfl rfl rfl

/-- Helper: looking up a key outside the filter's key set in a filtered
association list fails. -/
theorem ctLookup_filter_not_mem (ct : List (String × String)) (u : List String) (t : String)
    (h : t ∉ u) : ctLookup (ct.filter (fun p => decide (p.1 ∈ u))) t = none := by
  induction ct with
  | nil => rfl
  | cons p rest ih =>
    by_cases hp : p.1 ∈ u
    · have hne : p.1 ≠ t := fun hh => h (hh ▸ hp)
      simp [List.filter_cons, hp, ctLookup, hne, ih]
    · simp [List.filter_cons, hp, ih]

/-- C7: at construction the custom mapping is filtered to exactly the entries
whose table name is in the usable set; a dropped entry's key can never be
looked up later (so it appears in no description), while an entry kept for a
usable table fully replaces that table's introspected description. -/
theorem claim_C7 (conn : ConnSpec) (database : String)
    (inc ign : Option (List String)) (ct : List (String × String)) (n : Int) (b : Bool)
    (db : DB) (ev : List Event)
    (hinit : initDB conn database inc ign (some ct) n b = (.ok db, ev)) :
    db.custom_table_info = ct.filter (fun p => decide (p.1 ∈ db.usable_tables)) ∧
    (∀ t, t ∉ db.usable_tables → ctLookup db.custom_table_info t = none) ∧
    (∀ t v r, ctLookup db.custom_table_info t = some v →
      db.conn.query (describeQuery t) = .ok r →
      (tableDesc db t).1 = .ok v) := by
  simp only [initDB] at hinit
  split at hinit
  · simp at hinit
  · split at hinit
    · simp at hinit
    · rename_i r hq usable hres
      split at hinit
      · simp at hinit
      · injection hinit with h1 h2
        injection h1 with h1
        subst h1
        refine ⟨?_, fun t ht => ?_, fun t v r2 hc hdq => ?_⟩
        · exact (List.filter_congr (fun p _ => by simp [pset, List.mem_dedup])).symm
        · exact ctLookup_filter_not_mem ct usable t
            (fun hmem => ht (by simpa [pset, List.mem_dedup] using hmem))
        · simp only at hdq hc
          simp only [Option.getD_some] at hc
          simp [tableDesc, hdq, hc]

/-- Witness for C7: constructing over `connA` with custom entries for the
usable table `t` and the unknown table `z` keeps exactly the `t` entry, the
`z` entry cannot be looked up, and `t`'s description is the custom text. -/
theorem claim_C7_witness :
    db7.custom_table_info =
      [("t", "CUSTOM"), ("z", "Z")].filter (fun p => decide (p.1 ∈ db7.usable_tables)) ∧
    ctLookup db7.custom_table_info "z" = none ∧
    (tableDesc db7 "t").1 = .ok "CUSTOM" :=
  have h := claim_C7 connA "db" none none [("t", "CUSTOM"), ("z", "Z")] 0 false db7
    [.issuedQuery "SHOW TABLES"] rfl
  ⟨h.1, h.2.1 "z" (by decide), h.2.2 "t" "CUSTOM" qrT rfl rfl⟩

end ClickHouseDB
